import Mathlib

/-!
Verification of the chainladder triangle core: the pandas-facing reduction
engine and group aggregation (`chainladder/core/pandas.py`) and the
incremental-additive development estimator
(`chainladder/development/incremental.py`).

Modelling conventions:
* A numeric cell is `Option ℚ`; `none` models IEEE NaN (and, for the one
  division operation in scope, the non-finite results of dividing by zero).
* The 4D value array of a triangle is a total function `Nat → Nat → Nat →
  Nat → Option ℚ`; only indices below the recorded shape are meaningful.
* Python in-place mutation is made explicit: functions return the new state
  of every object they would mutate.
* numpy's `nan`-prefixed reductions are translated from their documented
  semantics: drop the NaN entries and apply the plain reduction, `nansum`
  of an empty slice being 0 and `nanprod` of an empty slice being 1, while
  the remaining nan-ops return NaN on an all-NaN slice.  `np.nanstd` is
  the square root of `np.nanvar`; the square root itself is irrational in
  general and is kept as an explicit function parameter `sq`.
-/

set_option autoImplicit false

namespace Chainladder

/-- A cell value: `none` is NaN, `some q` a finite float (modelled in ℚ). -/
abbrev Val := Option ℚ

/-- Axis labels: pandas stores strings (key components), numbers (the
sentinel column label `0`) and dates (origin / valuation periods). -/
inductive Label where
  | str (s : String)
  | num (q : ℚ)
  | date (d : Nat)
  deriving DecidableEq, Repr

/-- The Triangle tensor: 4D values plus the axis metadata of
`chainladder.core`.  `R, C, O, D` mirror `values.shape`. -/
structure Triangle where
  R : Nat
  C : Nat
  O : Nat
  D : Nat
  values : Nat → Nat → Nat → Nat → Val
  kdims : List (List Label)
  key_labels : List String
  vdims : List Label
  odims : List Label
  ddims : List Label
  valuation_date : Nat

/-- The `values.shape` of a triangle. -/
def Triangle.shape (t : Triangle) : Nat × Nat × Nat × Nat := (t.R, t.C, t.O, t.D)

/-- Length of a given axis of the value array. -/
def axisLen (t : Triangle) (ax : Nat) : Nat :=
  if ax = 0 then t.R else if ax = 1 then t.C else if ax = 2 then t.O else t.D

/-- NaN-propagating multiplication (IEEE: any NaN operand gives NaN). -/
def nmul (a b : Val) : Val :=
  match a, b with
  | some x, some y => some (x * y)
  | _, _ => none

/-- NaN-propagating subtraction. -/
def nsub (a b : Val) : Val :=
  match a, b with
  | some x, some y => some (x - y)
  | _, _ => none

/-- NaN-propagating division.  Division by zero produces a non-finite
float (`inf` or `nan`); both are collapsed to `none` here, since no code
in scope distinguishes them. -/
def ndiv (a b : Val) : Val :=
  match a, b with
  | some x, some y => if y = 0 then none else some (x / y)
  | _, _ => none

/-- The finite (non-NaN) entries of a slice, in order. -/
def validVals : List Val → List ℚ
  | [] => []
  | none :: xs => validVals xs
  | some x :: xs => x :: validVals xs

/-- Generic insertion sort used for numpy sorting and pandas key sorting. -/
def insertLE {α : Type} (le : α → α → Bool) (x : α) : List α → List α
  | [] => [x]
  | y :: ys => if le x y then x :: y :: ys else y :: insertLE le x ys

/-- Insertion sort by a boolean comparison. -/
def insertionSort {α : Type} (le : α → α → Bool) : List α → List α
  | [] => []
  | x :: xs => insertLE le x (insertionSort le xs)

/-- Model of `np.nansum`: sum of the finite entries; 0 when all entries are NaN. -/
def nansumL (l : List Val) : Val := some (validVals l).sum

/-- Model of `np.nanprod`: product of the finite entries; 1 when all are NaN. -/
def nanprodL (l : List Val) : Val := some (validVals l).prod

/-- Model of `np.nanmean`: mean of the finite entries; NaN when all are NaN. -/
def nanmeanL (l : List Val) : Val :=
  match validVals l with
  | [] => none
  | xs => some (xs.sum / (xs.length : ℚ))

/-- Model of `np.nanmax`: maximum of the finite entries; NaN when all are NaN. -/
def nanmaxL (l : List Val) : Val :=
  match validVals l with
  | [] => none
  | x :: xs => some (xs.foldl max x)

/-- Model of `np.nanmin`: minimum of the finite entries; NaN when all are NaN. -/
def nanminL (l : List Val) : Val :=
  match validVals l with
  | [] => none
  | x :: xs => some (xs.foldl min x)

/-- Model of `np.nanvar` (ddof = 0): population variance of the finite entries. -/
def nanvarL (l : List Val) : Val :=
  match validVals l with
  | [] => none
  | xs =>
    let m := xs.sum / (xs.length : ℚ)
    some ((xs.map (fun v => (v - m) ^ 2)).sum / (xs.length : ℚ))

/-- Model of `np.nanstd`: the square root of `np.nanvar`; the (irrational) square
root is the explicit parameter `sq`. -/
def nanstdL (sq : ℚ → ℚ) (l : List Val) : Val := (nanvarL l).map sq

/-- Model of `np.nanmedian`: middle entry (or mean of the two middles) of the
sorted finite entries; NaN when all are NaN. -/
def nanmedianL (l : List Val) : Val :=
  match insertionSort (fun a b : ℚ => decide (a ≤ b)) (validVals l) with
  | [] => none
  | xs =>
    let n := xs.length
    if n % 2 = 1 then some (xs.getD (n / 2) 0)
    else some ((xs.getD (n / 2 - 1) 0 + xs.getD (n / 2) 0) / 2)

/-- Model of `np.nanquantile` with the default linear interpolation, for
`q ∈ [0, 1]`: NaN when all entries are NaN. -/
def nanquantileL (q : ℚ) (l : List Val) : Val :=
  match insertionSort (fun a b : ℚ => decide (a ≤ b)) (validVals l) with
  | [] => none
  | xs =>
    let n := xs.length
    let h := ((n : ℚ) - 1) * q
    let i := (Rat.floor h).toNat
    let lo := xs.getD i 0
    let hi := xs.getD (Nat.min (i + 1) (n - 1)) 0
    some (lo + (h - (i : ℚ)) * (hi - lo))

/-- The reduction-operation names registered by the `agg_funcs` loop at the
bottom of `pandas.py` (plus `diff` from `more_aggs`). -/
inductive OpName where
  | sum | mean | median | max | min | prod | var | std | cumsum | quantile | diff
  deriving DecidableEq, Repr

/-- Whether the numpy function `nan<op>` (resp. `diff`) accepts the
`keepdims` keyword the generated `agg_func` always passes.  `np.nancumsum`
and `np.diff` do not, so those two methods raise `TypeError`. -/
def supportsKeepdims : OpName → Bool
  | .cumsum => false
  | .diff => false
  | _ => true

/-- Interpretation of `getattr(xp, v)` for the collapsing nan-reductions.
`sq` models the square root inside `nanstd`; `q` is the quantile argument. -/
def reduceOp (op : OpName) (sq : ℚ → ℚ) (q : ℚ) (l : List Val) : Val :=
  match op with
  | .sum => nansumL l
  | .mean => nanmeanL l
  | .median => nanmedianL l
  | .max => nanmaxL l
  | .min => nanminL l
  | .prod => nanprodL l
  | .var => nanvarL l
  | .std => nanstdL sq l
  | .quantile => nanquantileL q l
  | .cumsum => none
  | .diff => none

/-- An axis argument as accepted by `TrianglePandas._get_axis`. -/
inductive AxisArg where
  | int (i : Int)
  | str (s : String)
  deriving DecidableEq, Repr

/-- The dictionary inside `_get_axis`: `some` for recognized axis keys. -/
def getAxis? (a : AxisArg) : Option Nat :=
  match a with
  | .int i =>
    if i = 0 then some 0 else if i = 1 then some 1
    else if i = 2 then some 2 else if i = 3 then some 3
    else if i = -1 then some 3 else if i = -2 then some 2
    else if i = -3 then some 1 else if i = -4 then some 0
    else none
  | .str s =>
    if s = "index" then some 0 else if s = "columns" then some 1
    else if s = "origin" then some 2 else if s = "development" then some 3
    else none

/-- Model of `TrianglePandas._get_axis`: `ax.get(axis, 0)` — unrecognized axis
arguments fall back to `0`. -/
def _get_axis (a : AxisArg) : Nat := (getAxis? a).getD 0

/-- Whether the axis argument is one of the recognized dictionary keys. -/
def knownAxis (a : AxisArg) : Bool := (getAxis? a).isSome

/-- The 1D slice of the value array along axis `ax` through the cell
`(i, j, k, l)` (the coordinate at `ax` itself is ignored). -/
def sliceAt (t : Triangle) (ax i j k l : Nat) : List Val :=
  if ax = 0 then (List.range t.R).map (fun m => t.values m j k l)
  else if ax = 1 then (List.range t.C).map (fun m => t.values i m k l)
  else if ax = 2 then (List.range t.O).map (fun m => t.values i j m l)
  else (List.range t.D).map (fun m => t.values i j k m)

/-- Zero-to-NaN conversion of a single cell (the cell-wise body of
`num_to_nan`). -/
def numToNanV (v : Val) : Val :=
  match v with
  | some x => if x = 0 then none else some x
  | none => none

/-- Modelled from the spec: `num_to_nan` (defined on the core triangle
class, outside `src/`).  Per §4.2/§9, cells exactly equal to zero are
converted back to NaN. -/
def numToNan (t : Triangle) : Triangle :=
  { t with values := fun i j k l => numToNanV (t.values i j k l) }

/-- Errors raised by the aggregation machinery (Python exception kinds). -/
inductive AggError where
  | valueError      -- `min([])` when no axis has length > 1
  | typeError       -- unexpected `keepdims` keyword (`cumsum`, `diff`)
  | attributeError  -- `.set_backend`/`.values` on a numpy scalar
  deriving DecidableEq, Repr

/-- The body of the generated `agg_func` for a keepdims-capable reduction,
after the axis has been resolved to `ax`: reduce with `keepdims=True`,
rewrite the collapsed axis's metadata, then `num_to_nan`.  The four
metadata rewrites in the source are guarded by `axis == k and
obj.values.shape[axis] == 1`; after a `keepdims=True` reduction along
`axis` the length of that axis is the literal 1, so the shape conjunct is
always true and the four (mutually exclusive) branches flatten to one
conditional per metadata field.  `num_to_nan` touches only the values. -/
def aggObjK (op : OpName) (sq : ℚ → ℚ) (q : ℚ) (ax : Nat) (t : Triangle) : Triangle :=
  { R := if ax = 0 then 1 else t.R
    C := if ax = 1 then 1 else t.C
    O := if ax = 2 then 1 else t.O
    D := if ax = 3 then 1 else t.D
    values := fun i j k l => numToNanV (reduceOp op sq q (sliceAt t ax i j k l))
    kdims := if ax = 0 then [List.replicate t.key_labels.length (Label.str "(All)")]
      else t.kdims
    key_labels := t.key_labels
    vdims := if ax = 1 then [Label.num 0] else t.vdims
    odims := if ax = 2 then t.odims.take 1 else t.odims
    ddims := if ax = 3 then [Label.date t.valuation_date] else t.ddims
    valuation_date := t.valuation_date }

/-- The generated `agg_func` after axis resolution: dispatch to numpy with
`keepdims=True`; `np.nancumsum` / `np.diff` reject that keyword. -/
def aggObj (op : OpName) (sq : ℚ → ℚ) (q : ℚ) (ax : Nat) (t : Triangle) :
    Except AggError Triangle :=
  if supportsKeepdims op then .ok (aggObjK op sq q ax t) else .error .typeError

/-- Model of `[num for num, _ in enumerate(obj.shape) if _ != 1]`. -/
def nonDegenerateAxes (t : Triangle) : List Nat :=
  (if t.R ≠ 1 then [0] else []) ++ (if t.C ≠ 1 then [1] else []) ++
  (if t.O ≠ 1 then [2] else []) ++ (if t.D ≠ 1 then [3] else [])

/-- Result of a triangle aggregation: a bare scalar when the final shape
is `(1,1,1,1)`, otherwise a new triangle. -/
inductive AggResult where
  | scalar (v : Val)
  | tri (t : Triangle)

/-- Axis resolution of the generated `agg_func`: `axis=None` takes
`min([num for num, _ in enumerate(obj.shape) if _ != 1])` (a `ValueError`
on an empty list); an explicit axis goes through `_get_axis`. -/
def resolveAxis (axis? : Option AxisArg) (t : Triangle) : Except AggError Nat :=
  match axis? with
  | none =>
    match (nonDegenerateAxes t).min? with
    | some m => Except.ok m
    | none => Except.error AggError.valueError
  | some a => Except.ok (_get_axis a)

/-- The full generated `agg_func` of `add_triangle_agg_func`: resolve the
axis (default: first axis of length ≠ 1, `ValueError` when none), reduce,
rewrite metadata, `num_to_nan`, and collapse a `(1,1,1,1)` result to its
scalar. -/
def aggFunc (op : OpName) (sq : ℚ → ℚ) (q : ℚ) (axis? : Option AxisArg)
    (t : Triangle) : Except AggError AggResult := do
  let ax ← resolveAxis axis? t
  let obj ← aggObj op sq q ax t
  if obj.R = 1 ∧ obj.C = 1 ∧ obj.O = 1 ∧ obj.D = 1 then
    return .scalar (obj.values 0 0 0 0)
  else
    return .tri obj

/-- The resulting triangle of an aggregation, when it returned one. -/
def aggTri? (op : OpName) (sq : ℚ → ℚ) (q : ℚ) (axis? : Option AxisArg)
    (t : Triangle) : Option Triangle :=
  match aggFunc op sq q axis? t with
  | .ok (.tri r) => some r
  | _ => none

/-- A cell of the resulting triangle of an aggregation. -/
def aggCell (op : OpName) (sq : ℚ → ℚ) (q : ℚ) (axis? : Option AxisArg)
    (t : Triangle) (i j k l : Nat) : Option Val :=
  (aggTri? op sq q axis? t).map (fun r => r.values i j k l)

/-- Whether the aggregation completed without raising. -/
def aggIsOk (op : OpName) (sq : ℚ → ℚ) (q : ℚ) (axis? : Option AxisArg)
    (t : Triangle) : Bool :=
  match aggFunc op sq q axis? t with
  | .ok _ => true
  | .error _ => false

/-! ### Group aggregation (`TriangleGroupBy` / `add_groupby_agg_func`) -/

/-- Lexicographic comparison of character lists by code point (Python's
string order). -/
def chListLE : List Char → List Char → Bool
  | [], _ => true
  | _ :: _, [] => false
  | a :: as, b :: bs => if a = b then chListLE as bs else decide (a.toNat < b.toNat)

/-- Python string comparison (code-point lexicographic order). -/
def strLE (a b : String) : Bool := chListLE a.data b.data

/-- A total order on labels used to model pandas' sorting of group keys
(`DataFrame.groupby` defaults to `sort=True`).  Pandas compares the actual
key values; keys of one grouping column share a single constructor in
practice, and the cross-constructor cases are an arbitrary total tie-break. -/
def labelLE (a b : Label) : Bool :=
  match a, b with
  | .str x, .str y => strLE x y
  | .num x, .num y => decide (x ≤ y)
  | .date x, .date y => decide (x ≤ y)
  | .str _, _ => true
  | _, .str _ => false
  | .num _, .date _ => true
  | .date _, .num _ => false

/-- Lexicographic order on composite group keys. -/
def keyLE : List Label → List Label → Bool
  | [], _ => true
  | _ :: _, [] => false
  | x :: xs, y :: ys => if x = y then keyLE xs ys else labelLE x y

/-- Position of a grouping column among the `key_labels` (the length of
the list when absent — pandas would raise `KeyError` there, which is the
out-of-scope `UnknownKey` failure). -/
def idxOf (b : String) : List String → Nat
  | [] => 0
  | s :: ss => if s = b then 0 else idxOf b ss + 1

/-- The group key of row `r`: the row's `kdims` entry projected onto the
grouping columns `bys` (positions looked up in `key_labels`). -/
def rowKey (t : Triangle) (bys : List String) (r : Nat) : List Label :=
  bys.map (fun b => (t.kdims.getD r []).getD (idxOf b t.key_labels) (Label.str ""))

/-- Distinct values of a list in order of first appearance. -/
def dedupFirstSeen : List (List Label) → List (List Label) :=
  go []
where
  /-- Worker carrying the set of keys already seen. -/
  go (seen : List (List Label)) : List (List Label) → List (List Label)
    | [] => []
    | x :: xs => if x ∈ seen then go seen xs else x :: go (x :: seen) xs

/-- The distinct group keys in the order pandas' `groupby(..., sort=True)`
produces them: sorted, not first-seen. -/
def sortedGroupKeys (t : Triangle) (bys : List String) : List (List Label) :=
  insertionSort keyLE (dedupFirstSeen ((List.range t.R).map (rowKey t bys)))

/-- The row indices belonging to one group key, in original row order. -/
def groupIndices (t : Triangle) (bys : List String) (key : List Label) : List Nat :=
  (List.range t.R).filter (fun r => rowKey t bys r = key)

/-- Model of `self.obj.iloc[idxs]`: the sub-triangle of the given rows. -/
def ilocRows (t : Triangle) (idxs : List Nat) : Triangle :=
  { t with
    R := idxs.length
    values := fun i j k l => t.values (idxs.getD i 0) j k l
    kdims := idxs.map (fun r => t.kdims.getD r []) }

/-- One entry of the `values` list comprehension in the groupby
`agg_func`: `getattr(self.obj.iloc[i], 'sum')(0,
auto_sparse=False).set_backend(...).values`.  The op is the literal
string `'sum'`.  A `(1,1,1,1)` group collapses to a numpy scalar, on
which `.set_backend` raises `AttributeError`. -/
def groupSumRow (t : Triangle) (bys : List String) (key : List Label) :
    Except AggError Triangle := do
  match ← aggFunc OpName.sum id 0 (some (AxisArg.int 0)) (ilocRows t (groupIndices t bys key)) with
  | .tri r => Except.ok r
  | .scalar _ => Except.error AggError.attributeError

/-- The list comprehension `[... for i in self.groups.indices.values()]`:
evaluates the per-group sums in group order, failing at the first
exception. -/
def mapExcept (f : List Label → Except AggError Triangle) :
    List (List Label) → Except AggError (List Triangle)
  | [] => Except.ok []
  | k :: ks => do
    let v ← f k
    let vs ← mapExcept f ks
    return v :: vs

/-- The generated groupby `agg_func` of `add_groupby_agg_func`.  Note the
body computes `getattr(self.obj.iloc[i], 'sum')(0, ...)` for every group:
the registered op name `op` is never consulted. -/
def groupbyAgg (op : OpName) (t : Triangle) (bys : List String) :
    Except AggError Triangle := do
  let keys := sortedGroupKeys t bys
  let vals ← mapExcept (groupSumRow t bys) keys
  return { t with
    R := keys.length
    values := fun i j k l => ((vals.get? i).map (fun s => s.values 0 j k l)).getD none
    key_labels := bys
    kdims := keys }

/-- A cell of the group-aggregation result (`none` when it raised). -/
def groupCell (op : OpName) (t : Triangle) (bys : List String) (i j k l : Nat) :
    Option Val :=
  match groupbyAgg op t bys with
  | .ok r => some (r.values i j k l)
  | .error _ => none

/-- The `kdims` of the group-aggregation result (`none` when it raised). -/
def groupKdims? (op : OpName) (t : Triangle) (bys : List String) :
    Option (List (List Label)) :=
  match groupbyAgg op t bys with
  | .ok r => some r.kdims
  | .error _ => none

/-! ### `TrianglePandas.to_frame` -/

/-- Model of `fillna(0)`: NaN becomes 0, finite cells are unchanged. -/
def fillna0 (v : Val) : Val :=
  match v with
  | none => some 0
  | some x => some x

/-- The cell of the squeezed value array with coordinate `i` at axis `a`
and 0 at every length-1 axis. -/
def coord1 (t : Triangle) (a i : Nat) : Val :=
  t.values (if a = 0 then i else 0) (if a = 1 then i else 0)
    (if a = 2 then i else 0) (if a = 3 then i else 0)

/-- The cell of the squeezed value array with coordinates `i` at axis `a`
and `j` at axis `b`. -/
def coord2 (t : Triangle) (a i b j : Nat) : Val :=
  t.values (if a = 0 then i else if b = 0 then j else 0)
    (if a = 1 then i else if b = 1 then j else 0)
    (if a = 2 then i else if b = 2 then j else 0)
    (if a = 3 then i else if b = 3 then j else 0)

/-- The tabular structure returned by `to_frame`. -/
inductive FrameResult where
  | reprF (vals : Nat → Nat → Val)          -- the `(1,1,O,D)` display branch
  | seriesF (len : Nat) (vals : Nat → Val)
  | frameF (n m : Nat) (vals : Nat → Nat → Val)
  | shapeErr                                 -- `ValueError`

/-- Model of `[num for num, item in enumerate(self.shape) if item > 1]`. -/
def frameAxes (t : Triangle) : List Nat :=
  (if t.R > 1 then [0] else []) ++ (if t.C > 1 then [1] else []) ++
  (if t.O > 1 then [2] else []) ++ (if t.D > 1 then [3] else [])

/-- Model of `TrianglePandas.to_frame`.  The `(1,1)` leading-shape branch delegates
to `_repr_format` (modelled from the spec: a display form of the `(O, D)`
face that preserves NaN cells); the 1- and 2-non-degenerate-axis branches
build a `pd.Series` / `pd.DataFrame` and call `.fillna(0)`; any other
shape raises `ValueError`. -/
def to_frame (t : Triangle) : FrameResult :=
  if t.R = 1 ∧ t.C = 1 then .reprF (fun k l => t.values 0 0 k l)
  else
    match frameAxes t with
    | [a] => .seriesF (axisLen t a) (fun i => fillna0 (coord1 t a i))
    | [a, b] => .frameF (axisLen t a) (axisLen t b) (fun i j => fillna0 (coord2 t a i b j))
    | _ => .shapeErr

/-- A cell of a `to_frame` result that is a `pd.Series`. -/
def seriesCell? (fr : FrameResult) (i : Nat) : Option Val :=
  match fr with
  | .seriesF _ v => some (v i)
  | _ => none

/-- A cell of a `to_frame` result that is a 2D `pd.DataFrame`. -/
def frameCell? (fr : FrameResult) (i j : Nat) : Option Val :=
  match fr with
  | .frameF _ _ v => some (v i j)
  | _ => none

/-! ### `TrianglePandas.astype` -/

/-- Cast every finite cell with `f` (the effect of `values.astype(dtype)`;
NaN stays NaN under float casts). -/
def castT (f : ℚ → ℚ) (t : Triangle) : Triangle :=
  { t with values := fun i j k l => (t.values i j k l).map f }

/-- Outcome of `astype`, with the mutation made explicit: the object
returned, the state of the receiver after the call, and whether the
returned object is the receiver itself (aliased) or a fresh copy. -/
structure AstypeOutcome where
  returned : Triangle
  receiverAfter : Triangle
  returnedIsReceiver : Bool

/-- Model of `TrianglePandas.astype`: `obj = self.copy() if inplace is True else
self; obj.values = obj.values.astype(dtype); return obj`. -/
def astype (f : ℚ → ℚ) (t : Triangle) (inplace : Bool) : AstypeOutcome :=
  if inplace then
    { returned := castT f t, receiverAfter := t, returnedIsReceiver := false }
  else
    { returned := castT f t, receiverAfter := castT f t, returnedIsReceiver := true }

/-! ### IncrementalAdditive (`chainladder/development/incremental.py`) -/

/-- A 4D weight array (same layout as triangle values). -/
abbrev V4 := Nat → Nat → Nat → Nat → Val

/-- Modelled from the spec: `Triangle.cum_to_incr` (defined on the core
triangle class, outside `src/`).  Per the glossary / §4.4 step 1,
incremental = period-over-period increase along the development axis,
the first development column being kept as-is. -/
def cum_to_incr (t : Triangle) : Triangle :=
  { t with values := fun i j k l =>
      if l = 0 then t.values i j k 0
      else nsub (t.values i j k l) (t.values i j k (l - 1)) }

/-- Cell-wise division of two triangles (`X.cum_to_incr()/sample_weight`). -/
def divT (a b : Triangle) : Triangle :=
  { a with values := fun i j k l => ndiv (a.values i j k l) (b.values i j k l) }

/-- Modelled from the spec: `Triangle.trend(trend, axis='origin')`
(defined outside `src/`).  Per §4.4 step 2, each origin period's values
are scaled by `(1+trend)` raised to the number of periods separating it
from the most recent origin. -/
def trendT (r : ℚ) (t : Triangle) : Triangle :=
  { t with values := fun i j k l =>
      (nmul (some ((1 + r) ^ (t.O - 1 - k))) (t.values i j k l)) }

/-- Model of `w_[w_ == 0] = np.nan`. -/
def zeroToNanW (w : V4) : V4 := fun i j k l =>
  match w i j k l with
  | some v => if v = 0 then none else some v
  | none => none

/-- Model of `np.concatenate((w_, (w_[..., -1:] * x.nan_triangle())[..., -1:]), axis=-1)`:
the `(D-1)`-column weight array gains a final column replicating its last
column masked by the last column of `x`'s nan-mask.  `mask k l` is
`x.nan_triangle()` (1.0 on observed cells, NaN above the staircase;
computed outside `src/`, hence a parameter here). -/
def extendW (D : Nat) (w : V4) (mask : Nat → Nat → Val) : V4 :=
  fun i j k l =>
    if l + 2 ≤ D then w i j k l
    else nmul (w i j k (D - 2)) (mask k (D - 1))

/-- The `average` hyperparameter of `IncrementalAdditive`. -/
inductive AverageKind where
  | volume | simple
  deriving DecidableEq, Repr

/-- The per-development-period fitted average `y_` of
`IncrementalAdditive.fit` (before `np.repeat` broadcasts it back over the
origin axis).  `wBase` is the `w_` produced by
`Development(n_periods=n_periods-1).fit(x)` (computed outside `src/`) and
`mask` is `x.nan_triangle()`.  The origin axis (`axis=-2`) is reduced, so
the result is indexed `(i, j, l)`. -/
def fitY (avg : AverageKind) (X sw : Triangle) (trend : ℚ) (wBase : V4)
    (mask : Nat → Nat → Val) : Nat → Nat → Nat → Val :=
  let x := trendT trend (divT (cum_to_incr X) sw)
  let w := extendW X.D (zeroToNanW wBase) mask
  fun i j l =>
    match avg with
    | .simple => nanmeanL ((List.range X.O).map (fun k => nmul (w i j k l) (x.values i j k l)))
    | .volume =>
      let num := nansumL ((List.range X.O).map
        (fun k => nmul (nmul (w i j k l) (x.values i j k l)) (sw.values i j k l)))
      let den := nansumL ((List.range X.O).map
        (fun k => nmul (w i j k l) (sw.values i j k l)))
      ndiv num den

/-- The fitted state of an `IncrementalAdditive` estimator used by
`transform`. -/
structure IncrementalAdditiveFitted where
  cdf_ : Triangle
  ldf_ : Triangle
  incremental_ : Triangle

/-- Scalar multiplication `Triangle * scalar` (cell-wise; NaN cells stay NaN, since
`nan * 0 = nan` in IEEE arithmetic). -/
def scalarMulT (t : Triangle) (c : ℚ) : Triangle :=
  { t with values := fun i j k l => nmul (t.values i j k l) (some c) }

/-- A triangle with the estimator attributes `transform` attaches to it. -/
structure TransformedTriangle where
  base : Triangle
  cdf_ : Triangle
  ldf_ : Triangle
  sigma_ : Triangle
  std_err_ : Triangle
  incremental_ : Triangle

/-- Model of `IncrementalAdditive.transform`: copy `cdf_`, `ldf_`, `incremental_`
onto `X` and set `sigma_` and `std_err_` to `self.cdf_ * 0`. -/
def transform (e : IncrementalAdditiveFitted) (X : Triangle) : TransformedTriangle :=
  { base := X
    cdf_ := e.cdf_
    ldf_ := e.ldf_
    sigma_ := scalarMulT e.cdf_ 0
    std_err_ := scalarMulT e.cdf_ 0
    incremental_ := e.incremental_ }

/-! ### Concrete triangles used as test inputs -/

/-- Two entities with the same `line` key, row values 1 and 3, two origin
periods (so the per-group sum stays a triangle). -/
def exC1 : Triangle :=
  { R := 2, C := 1, O := 2, D := 1
    values := fun i _ _ _ => if i = 0 then some 1 else some 3
    kdims := [[Label.str "A"], [Label.str "A"]]
    key_labels := ["line"]
    vdims := [Label.num 0]
    odims := [Label.date 2000, Label.date 2001]
    ddims := [Label.date 12]
    valuation_date := 2001 }

/-- Two entities, row values 1 and 2, two origin periods. -/
def ex2 : Triangle :=
  { R := 2, C := 1, O := 2, D := 1
    values := fun i _ _ _ => if i = 0 then some 1 else some 2
    kdims := [[Label.str "A"], [Label.str "B"]]
    key_labels := ["line"]
    vdims := [Label.num 0]
    odims := [Label.date 2000, Label.date 2001]
    ddims := [Label.date 12]
    valuation_date := 2001 }

/-- A `(1,1,2,2)` triangle whose cells are all NaN. -/
def exNaN : Triangle :=
  { R := 1, C := 1, O := 2, D := 2
    values := fun _ _ _ _ => none
    kdims := [[Label.str "A"]]
    key_labels := ["line"]
    vdims := [Label.num 0]
    odims := [Label.date 2000, Label.date 2001]
    ddims := [Label.date 12, Label.date 24]
    valuation_date := 2001 }

/-- A `(1,1,1,1)` triangle containing the scalar 5. -/
def exScalar : Triangle :=
  { R := 1, C := 1, O := 1, D := 1
    values := fun _ _ _ _ => some 5
    kdims := [[Label.str "A"]]
    key_labels := ["line"]
    vdims := [Label.num 0]
    odims := [Label.date 2000]
    ddims := [Label.date 12]
    valuation_date := 2000 }

/-- A `(2,2,2,2)` triangle of ones used to exercise the metadata-collapse
rules on every axis. -/
def exC5 : Triangle :=
  { R := 2, C := 2, O := 2, D := 2
    values := fun _ _ _ _ => some 1
    kdims := [[Label.str "A"], [Label.str "B"]]
    key_labels := ["line"]
    vdims := [Label.str "paid", Label.str "incurred"]
    odims := [Label.date 2000, Label.date 2001]
    ddims := [Label.date 12, Label.date 24]
    valuation_date := 2002 }

/-- Two entities whose `line` keys appear in the order B, A. -/
def ex6 : Triangle :=
  { R := 2, C := 1, O := 2, D := 1
    values := fun _ _ _ _ => some 1
    kdims := [[Label.str "B"], [Label.str "A"]]
    key_labels := ["line"]
    vdims := [Label.num 0]
    odims := [Label.date 2000, Label.date 2001]
    ddims := [Label.date 12]
    valuation_date := 2001 }

/-- A `(2,1,1,1)` triangle with one finite and one NaN cell. -/
def ex8 : Triangle :=
  { R := 2, C := 1, O := 1, D := 1
    values := fun i _ _ _ => if i = 0 then some 5 else none
    kdims := [[Label.str "A"], [Label.str "B"]]
    key_labels := ["line"]
    vdims := [Label.num 0]
    odims := [Label.date 2000]
    ddims := [Label.date 12]
    valuation_date := 2000 }

/-! ### Helper lemmas -/

/-- A slice whose entries are all NaN has no finite entries. -/
theorem validVals_eq_nil {l : List Val} (h : ∀ v ∈ l, v = none) :
    validVals l = [] := by
  induction l with
  | nil => rfl
  | cons x xs ih =>
    have hx : x = none := h x (List.mem_cons_self x xs)
    subst hx
    exact ih (fun v hv => h v (List.mem_cons_of_mem _ hv))

/-- The metadata-rewrite steps of `agg_func` do not touch the value
array: every cell of the reduction result is the `num_to_nan` image of
the named reduction of the corresponding input slice. -/
theorem aggObjK_values (op : OpName) (sq : ℚ → ℚ) (q : ℚ) (ax : Nat)
    (t : Triangle) (i j k l : Nat) :
    (aggObjK op sq q ax t).values i j k l =
      numToNanV (reduceOp op sq q (sliceAt t ax i j k l)) := rfl

/-! ### Claim theorems -/

/-- C1: the claim says each registered group-aggregation method (sum,
mean, median, max, min, prod, var, std, cumsum, quantile) reduces each
group's rows along axis 0 *with that named op*.  The code hardcodes
`'sum'`: the registered name is never consulted, so `groupbyAgg` is the
same function for every op, and on a group holding rows 1 and 3 the
method named `mean` returns 4 (their sum), where the mean — which the
generated docstring promises — is 2. -/
theorem C1_groupby_every_op_is_sum :
    (∀ (op op' : OpName) (t : Triangle) (bys : List String),
      groupbyAgg op t bys = groupbyAgg op' t bys) ∧
    groupCell OpName.mean exC1 ["line"] 0 0 0 0 = some (some 4) ∧
    nanmeanL [some 1, some 3] = some 2 := by
  refine ⟨fun op op' t bys => rfl, ?_, ?_⟩
  · norm_num [groupCell, groupbyAgg, groupSumRow, sortedGroupKeys,
      dedupFirstSeen, dedupFirstSeen.go, insertionSort, insertLE, keyLE,
      labelLE, rowKey, idxOf, groupIndices, ilocRows, mapExcept, aggFunc,
      resolveAxis, aggObj, aggObjK, supportsKeepdims, _get_axis, getAxis?,
      sliceAt, reduceOp, nansumL, validVals, numToNanV, exC1,
      List.range_succ, Bind.bind, Except.bind, Pure.pure, Except.pure]
  · norm_num [nanmeanL, validVals]

/-- C2 (counterexample): an axis argument of 7 does not raise — it
resolves to axis 0 (`ax.get(axis, 0)`) and the reduction is performed
along axis 0 (here summing rows 1 and 2 to 3). -/
theorem C2_unknown_axis_is_not_an_error :
    knownAxis (AxisArg.int 7) = false ∧
    _get_axis (AxisArg.int 7) = 0 ∧
    aggIsOk OpName.sum id 0 (some (AxisArg.int 7)) ex2 = true ∧
    aggCell OpName.sum id 0 (some (AxisArg.int 7)) ex2 0 0 0 0 = some (some 3) := by
  refine ⟨rfl, rfl, rfl, ?_⟩
  norm_num [aggCell, aggTri?, aggFunc, resolveAxis, aggObj, aggObjK,
    supportsKeepdims, _get_axis, getAxis?, sliceAt, reduceOp, nansumL,
    validVals, numToNanV, ex2, List.range_succ, Bind.bind, Except.bind,
    Pure.pure, Except.pure]

/-- C2 (amended): an axis argument that is not a recognized key of the
`_get_axis` dictionary resolves to axis 0 and the reduction proceeds
along axis 0 exactly as if axis 0 had been requested; no error is
raised. -/
theorem C2_unknown_axis_defaults_to_zero (a : AxisArg) (op : OpName)
    (sq : ℚ → ℚ) (q : ℚ) (t : Triangle) (h : knownAxis a = false) :
    _get_axis a = 0 ∧
    aggFunc op sq q (some a) t = aggFunc op sq q (some (AxisArg.int 0)) t := by
  have hz : _get_axis a = 0 := by
    unfold knownAxis at h
    unfold _get_axis
    cases hga : getAxis? a with
    | none => rfl
    | some m => rw [hga] at h; simp at h
  refine ⟨hz, ?_⟩
  have h1 : resolveAxis (some a) t = Except.ok 0 := by
    simp [resolveAxis, hz]
  unfold aggFunc
  rw [h1]
  rfl

/-- C2 (witness for the amended theorem), at the unrecognized axis 7. -/
theorem C2_unknown_axis_defaults_witness :
    _get_axis (AxisArg.int 7) = 0 ∧
    aggFunc OpName.sum id 0 (some (AxisArg.int 7)) ex2 =
      aggFunc OpName.sum id 0 (some (AxisArg.int 0)) ex2 :=
  C2_unknown_axis_defaults_to_zero (AxisArg.int 7) OpName.sum id 0 ex2 (by decide)

/-- C3 (counterexample): on an all-NaN `(1,1,2,2)` triangle, reducing the
development axis with `prod` yields 1 in every output cell (`np.nanprod`
of an all-NaN slice is the empty product 1, which `num_to_nan` does not
rewrite), not NaN. -/
theorem C3_prod_of_all_nan_slice_is_one :
    sliceAt exNaN 3 0 0 0 0 = [none, none] ∧
    aggCell OpName.prod id 0 (some (AxisArg.int 3)) exNaN 0 0 0 0 = some (some 1) := by
  refine ⟨rfl, ?_⟩
  decide

/-- C3 (amended): for every NaN-skipping reduction *other than prod*, any
output cell whose input slice along the reduced axis is entirely NaN is
NaN in the result, never 0 (for `prod` such a cell is the empty product
1).  `sum` produces 0 and `num_to_nan` rewrites it to NaN; the other
nan-ops produce NaN directly; `cumsum`/`diff` raise before producing
cells. -/
theorem C3_all_nan_slice_yields_nan (op : OpName) (sq : ℚ → ℚ) (q : ℚ)
    (ax : Nat) (t : Triangle) (r : Triangle) (hop : op ≠ OpName.prod)
    (h : aggObj op sq q ax t = Except.ok r) (i j k l : Nat)
    (hall : ∀ v ∈ sliceAt t ax i j k l, v = none) :
    r.values i j k l = none := by
  have hV : validVals (sliceAt t ax i j k l) = [] := validVals_eq_nil hall
  cases op with
  | prod => exact absurd rfl hop
  | cumsum => simp [aggObj, supportsKeepdims] at h
  | diff => simp [aggObj, supportsKeepdims] at h
  | sum =>
    have hr : r = aggObjK OpName.sum sq q ax t := by
      simp [aggObj, supportsKeepdims] at h
      exact h.symm
    subst hr
    rw [aggObjK_values]
    simp [reduceOp, nansumL, hV, numToNanV]
  | mean =>
    have hr : r = aggObjK OpName.mean sq q ax t := by
      simp [aggObj, supportsKeepdims] at h
      exact h.symm
    subst hr
    rw [aggObjK_values]
    simp [reduceOp, nanmeanL, hV, numToNanV]
  | median =>
    have hr : r = aggObjK OpName.median sq q ax t := by
      simp [aggObj, supportsKeepdims] at h
      exact h.symm
    subst hr
    rw [aggObjK_values]
    simp [reduceOp, nanmedianL, hV, numToNanV, insertionSort]
  | max =>
    have hr : r = aggObjK OpName.max sq q ax t := by
      simp [aggObj, supportsKeepdims] at h
      exact h.symm
    subst hr
    rw [aggObjK_values]
    simp [reduceOp, nanmaxL, hV, numToNanV]
  | min =>
    have hr : r = aggObjK OpName.min sq q ax t := by
      simp [aggObj, supportsKeepdims] at h
      exact h.symm
    subst hr
    rw [aggObjK_values]
    simp [reduceOp, nanminL, hV, numToNanV]
  | var =>
    have hr : r = aggObjK OpName.var sq q ax t := by
      simp [aggObj, supportsKeepdims] at h
      exact h.symm
    subst hr
    rw [aggObjK_values]
    simp [reduceOp, nanvarL, hV, numToNanV]
  | std =>
    have hr : r = aggObjK OpName.std sq q ax t := by
      simp [aggObj, supportsKeepdims] at h
      exact h.symm
    subst hr
    rw [aggObjK_values]
    simp [reduceOp, nanstdL, nanvarL, hV, numToNanV]
  | quantile =>
    have hr : r = aggObjK OpName.quantile sq q ax t := by
      simp [aggObj, supportsKeepdims] at h
      exact h.symm
    subst hr
    rw [aggObjK_values]
    simp [reduceOp, nanquantileL, hV, numToNanV, insertionSort]

/-- C3 (witness for the amended theorem): summing the all-NaN triangle
along the development axis yields a NaN cell. -/
theorem C3_all_nan_slice_witness :
    (aggObjK OpName.sum id 0 3 exNaN).values 0 0 0 0 = none :=
  C3_all_nan_slice_yields_nan OpName.sum id 0 3 exNaN _ (by decide) rfl 0 0 0 0
    (by decide)

/-- C4 (counterexample): calling `sum` with the axis argument omitted on
a `(1,1,1,1)` triangle raises (Python: `min([])` is a `ValueError`,
since no axis has length greater than 1), instead of returning the
contained scalar 5. -/
theorem C4_sum_axis_omitted_raises :
    aggFunc OpName.sum id 0 none exScalar = Except.error AggError.valueError := rfl

/-- C4 (amended): on a `(1,1,1,1)` triangle, `sum` with the axis omitted
raises (`min` over the empty list of non-degenerate axes); with an
explicit axis it returns the contained scalar unchanged — the bare
number, not a Triangle — provided the value is a nonzero number (a zero
or NaN cell comes back as NaN because of `num_to_nan`). -/
theorem C4_scalar_shape_sum (sq : ℚ → ℚ) (q : ℚ) (t : Triangle)
    (hR : t.R = 1) (hC : t.C = 1) (hO : t.O = 1) (hD : t.D = 1) :
    aggFunc OpName.sum sq q none t = Except.error AggError.valueError ∧
    (∀ v : ℚ, t.values 0 0 0 0 = some v → v ≠ 0 →
      aggFunc OpName.sum sq q (some (AxisArg.int 0)) t =
        Except.ok (AggResult.scalar (some v))) := by
  constructor
  · simp [aggFunc, resolveAxis, nonDegenerateAxes, hR, hC, hO, hD,
      List.min?_nil, Bind.bind, Except.bind]
  · intro v hv hvz
    simp [aggFunc, resolveAxis, _get_axis, getAxis?, aggObj,
      supportsKeepdims, aggObjK, sliceAt, reduceOp, nansumL, validVals,
      numToNanV, hR, hC, hO, hD, hv, hvz, List.range_succ, List.range_zero,
      Bind.bind, Except.bind, Pure.pure, Except.pure]

/-- C4 (witness for the amended theorem), on the `(1,1,1,1)` triangle
holding 5. -/
theorem C4_scalar_shape_sum_witness :
    aggFunc OpName.sum id 0 none exScalar = Except.error AggError.valueError ∧
    aggFunc OpName.sum id 0 (some (AxisArg.int 0)) exScalar =
      Except.ok (AggResult.scalar (some 5)) :=
  ⟨(C4_scalar_shape_sum id 0 exScalar rfl rfl rfl rfl).1,
   (C4_scalar_shape_sum id 0 exScalar rfl rfl rfl rfl).2 5 rfl (by norm_num)⟩

/-- C5: when a reduction collapses axis `ax` to length 1, the collapsed
axis's metadata is rewritten by the four-case rule of the source: axis 0
becomes a single row of `"(All)"` repeated across all `key_labels`
components, axis 1 becomes the single column label 0, axis 2 becomes the
first original origin period, and axis 3 becomes the single period equal
to the tensor's `valuation_date`. -/
theorem C5_collapsed_axis_metadata (op : OpName) (sq : ℚ → ℚ) (q : ℚ)
    (ax : Nat) (t : Triangle) (r : Triangle)
    (h : aggObj op sq q ax t = Except.ok r) :
    (ax = 0 → r.kdims = [List.replicate t.key_labels.length (Label.str "(All)")]) ∧
    (ax = 1 → r.vdims = [Label.num 0]) ∧
    (ax = 2 → r.odims = t.odims.take 1) ∧
    (ax = 3 → r.ddims = [Label.date t.valuation_date]) := by
  have hr : r = aggObjK op sq q ax t := by
    unfold aggObj at h
    split at h
    · exact (Except.ok.injEq _ _).mp h |>.symm
    · exact absurd h (by simp)
  subst hr
  refine ⟨fun h0 => ?_, fun h1 => ?_, fun h2 => ?_, fun h3 => ?_⟩
  · subst h0; simp [aggObjK]
  · subst h1; simp [aggObjK]
  · subst h2; simp [aggObjK]
  · subst h3; simp [aggObjK]

/-- C5 (witness), exercising all four axes of a `(2,2,2,2)` triangle of
ones under `sum`. -/
theorem C5_collapsed_axis_metadata_witness :
    (aggObjK OpName.sum id 0 0 exC5).kdims =
      [List.replicate exC5.key_labels.length (Label.str "(All)")] ∧
    (aggObjK OpName.sum id 0 1 exC5).vdims = [Label.num 0] ∧
    (aggObjK OpName.sum id 0 2 exC5).odims = exC5.odims.take 1 ∧
    (aggObjK OpName.sum id 0 3 exC5).ddims = [Label.date exC5.valuation_date] :=
  ⟨(C5_collapsed_axis_metadata OpName.sum id 0 0 exC5 _ rfl).1 rfl,
   (C5_collapsed_axis_metadata OpName.sum id 0 1 exC5 _ rfl).2.1 rfl,
   (C5_collapsed_axis_metadata OpName.sum id 0 2 exC5 _ rfl).2.2.1 rfl,
   (C5_collapsed_axis_metadata OpName.sum id 0 3 exC5 _ rfl).2.2.2 rfl⟩

/-- The pandas sort compares the key values: B is not ≤ A. -/
theorem labelLE_B_A : labelLE (Label.str "B") (Label.str "A") = false := by
  decide

/-- The pandas sort compares the key values: A ≤ B. -/
theorem labelLE_A_B : labelLE (Label.str "A") (Label.str "B") = true := by
  decide

/-- C6 (counterexample): on two entities whose `line` keys appear in the
order B, A, the aggregated `row_keys` come out sorted — `[A, B]` — while
first-seen order (the claim) would be `[B, A]`.  The underlying pandas
`DataFrame.groupby` defaults to `sort=True`. -/
theorem C6_group_order_sorted_not_first_seen :
    groupKdims? OpName.sum ex6 ["line"] =
      some [[Label.str "A"], [Label.str "B"]] ∧
    dedupFirstSeen ((List.range ex6.R).map (rowKey ex6 ["line"])) =
      [[Label.str "B"], [Label.str "A"]] ∧
    ([[Label.str "A"], [Label.str "B"]] : List (List Label)) ≠
      [[Label.str "B"], [Label.str "A"]] := by
  refine ⟨?_, rfl, by decide⟩
  norm_num [groupKdims?, groupbyAgg, groupSumRow, sortedGroupKeys,
    dedupFirstSeen, dedupFirstSeen.go, insertionSort, insertLE, keyLE,
    labelLE_B_A, labelLE_A_B, rowKey, idxOf, groupIndices, ilocRows,
    mapExcept, aggFunc, resolveAxis, aggObj, aggObjK, supportsKeepdims,
    _get_axis, getAxis?, sliceAt, reduceOp, nansumL, validVals,
    numToNanV, ex6, List.range_succ, Bind.bind, Except.bind, Pure.pure,
    Except.pure]
  intro hba
  exact absurd hba (by decide)

/-- C6 (amended): the groups produced by group-by — and hence the row
order and `row_keys` of the aggregated result — are the distinct key
tuples *sorted* by key value (pandas `groupby` defaults to `sort=True`),
not in order of first appearance. -/
theorem C6_group_order_is_sorted (op : OpName) (t : Triangle)
    (bys : List String) (ks : List (List Label))
    (h : groupKdims? op t bys = some ks) :
    ks = insertionSort keyLE
      (dedupFirstSeen ((List.range t.R).map (rowKey t bys))) := by
  unfold groupKdims? at h
  cases hg : groupbyAgg op t bys with
  | error e => rw [hg] at h; exact absurd h (by simp)
  | ok r =>
    rw [hg] at h
    have hks : ks = r.kdims := by
      simpa using h.symm
    subst hks
    simp only [groupbyAgg] at hg
    cases hm : mapExcept (groupSumRow t bys) (sortedGroupKeys t bys) with
    | error e =>
      rw [hm] at hg
      exact absurd hg (by simp [Bind.bind, Except.bind])
    | ok vals =>
      rw [hm] at hg
      simp only [Bind.bind, Except.bind, Pure.pure, Except.pure] at hg
      have hrr := (Except.ok.injEq _ _).mp hg
      rw [← hrr]
      rfl

/-- C6 (witness for the amended theorem), at the B-then-A triangle. -/
theorem C6_group_order_is_sorted_witness :
    ([[Label.str "A"], [Label.str "B"]] : List (List Label)) =
      insertionSort keyLE
        (dedupFirstSeen ((List.range ex6.R).map (rowKey ex6 ["line"]))) := by
  have h : groupKdims? OpName.sum ex6 ["line"] =
      some [[Label.str "A"], [Label.str "B"]] := by
    norm_num [groupKdims?, groupbyAgg, groupSumRow, sortedGroupKeys,
      dedupFirstSeen, dedupFirstSeen.go, insertionSort, insertLE, keyLE,
      labelLE_B_A, labelLE_A_B, rowKey, idxOf, groupIndices, ilocRows,
      mapExcept, aggFunc, resolveAxis, aggObj, aggObjK, supportsKeepdims,
      _get_axis, getAxis?, sliceAt, reduceOp, nansumL, validVals,
      numToNanV, ex6, List.range_succ, Bind.bind, Except.bind, Pure.pure,
      Except.pure]
    intro hba
    exact absurd hba (by decide)
  exact C6_group_order_is_sorted OpName.sum ex6 ["line"]
    [[Label.str "A"], [Label.str "B"]] h

/-- C7: in `IncrementalAdditive.fit` with `average='volume'`, the
per-development-period fitted average equals
`nansum(w * x * sample_weight) / nansum(w * sample_weight)` taken
NaN-skipping across the origin axis, where `x` is the trended incremental
loss-ratio tensor and `w` the (zero-masked, extended) development
weights. -/
theorem C7_volume_average_formula (X sw : Triangle) (trend : ℚ)
    (wBase : V4) (mask : Nat → Nat → Val) (i j l : Nat) :
    fitY AverageKind.volume X sw trend wBase mask i j l =
      ndiv
        (nansumL ((List.range X.O).map (fun k =>
          nmul (nmul (extendW X.D (zeroToNanW wBase) mask i j k l)
              ((trendT trend (divT (cum_to_incr X) sw)).values i j k l))
            (sw.values i j k l))))
        (nansumL ((List.range X.O).map (fun k =>
          nmul (extendW X.D (zeroToNanW wBase) mask i j k l)
            (sw.values i j k l)))) := rfl

/-- C8 (counterexample): `to_frame` on a `(2,1,1,1)` triangle whose
second cell is NaN produces a Series whose second entry is 0 — the
`.fillna(0)` in the Series/DataFrame branches silently zeroes NaN
cells. -/
theorem C8_to_frame_zeroes_nan :
    ex8.values 1 0 0 0 = none ∧
    seriesCell? (to_frame ex8) 1 = some (some 0) := by
  exact ⟨rfl, rfl⟩

/-- C8 (amended): in the branches where the first two axes are not both
length 1 (the `pd.Series` / `pd.DataFrame` branches), `to_frame` applies
`.fillna(0)`: every NaN cell of the triangle appears as 0, not NaN, in
the returned tabular structure.  NaN survives only in the `(1,1,O,D)`
display branch. -/
theorem C8_fillna_zeroes_nan_cells (t : Triangle) :
    (∀ a i, frameAxes t = [a] → ¬(t.R = 1 ∧ t.C = 1) → coord1 t a i = none →
      seriesCell? (to_frame t) i = some (some 0)) ∧
    (∀ a b i j, frameAxes t = [a, b] → ¬(t.R = 1 ∧ t.C = 1) →
      coord2 t a i b j = none →
      frameCell? (to_frame t) i j = some (some 0)) := by
  constructor
  · intro a i hax hnot hcell
    simp [to_frame, hax, hnot, seriesCell?, fillna0, hcell]
  · intro a b i j hax hnot hcell
    simp [to_frame, hax, hnot, frameCell?, fillna0, hcell]

/-- C8 (witness for the amended theorem), at the `(2,1,1,1)` triangle. -/
theorem C8_fillna_zeroes_nan_witness :
    seriesCell? (to_frame ex8) 1 = some (some 0) :=
  (C8_fillna_zeroes_nan_cells ex8).1 0 1 rfl (by decide) rfl

/-- C9: `IncrementalAdditive.transform(X)` copies the fitted `cdf_`,
`ldf_` and `incremental_` onto `X` and sets `X.sigma_` and `X.std_err_`
to `self.cdf_ * 0` — zero-valued tensors shaped like `cdf_`. -/
theorem C9_transform_copies_and_zeroes (e : IncrementalAdditiveFitted)
    (X : Triangle) :
    (transform e X).base = X ∧
    (transform e X).cdf_ = e.cdf_ ∧
    (transform e X).ldf_ = e.ldf_ ∧
    (transform e X).incremental_ = e.incremental_ ∧
    (transform e X).sigma_ = scalarMulT e.cdf_ 0 ∧
    (transform e X).std_err_ = scalarMulT e.cdf_ 0 ∧
    (transform e X).sigma_.shape = e.cdf_.shape :=
  ⟨rfl, rfl, rfl, rfl, rfl, rfl, rfl⟩

/-- C10: `astype`'s `inplace` flag has inverted effect —
`astype(dtype, inplace=True)` returns a fresh cast triangle and leaves
the receiver unchanged, while `astype(dtype, inplace=False)` casts the
receiver's values in place and returns that same (aliased) object. -/
theorem C10_astype_inplace_inverted (f : ℚ → ℚ) (t : Triangle) :
    (astype f t true).returned = castT f t ∧
    (astype f t true).receiverAfter = t ∧
    (astype f t true).returnedIsReceiver = false ∧
    (astype f t false).returned = castT f t ∧
    (astype f t false).receiverAfter = castT f t ∧
    (astype f t false).returnedIsReceiver = true :=
  ⟨rfl, rfl, rfl, rfl, rfl, rfl⟩

end Chainladder
